import Mathlib

/-!
Shallow embedding of the real-time animation/physics core of the portfolio
repository: the damped-harmonic Spring integrator and the 3-axis Spring3D
(src/utils/AnimationOrchestrator.ts), the bounded ripple store
(store: addRipple / clearExpiredRipples), the per-frame ripple uniform
packing (src/components/3D/MercurySurface.tsx) and the displacement shader
(src/shaders/mercuryVertex.glsl), and the ParticlePhysicsSystem
(src/utils/constants.ts).  JavaScript numbers are modelled as ℚ where the
code only uses field arithmetic and comparisons, and as ℝ where the code
uses sqrt / sin / exp / acos.
-/

namespace Portfolio

/-- Configuration triple of a spring, mirroring `SpringConfig` in
`src/utils/constants.ts`. -/
structure SpringConfig where
  tension : ℚ
  friction : ℚ
  mass : ℚ
deriving DecidableEq, Repr

/-- State of a scalar `Spring` (class `Spring` in
`src/utils/AnimationOrchestrator.ts`): position, velocity, target and the
configuration fields copied verbatim by the constructor. -/
structure Spring where
  position : ℚ
  velocity : ℚ
  target : ℚ
  tension : ℚ
  friction : ℚ
  mass : ℚ
deriving DecidableEq, Repr

/-- The `Spring` constructor.  It copies the configuration verbatim and
performs no validation of any kind (in particular no check on `mass`). -/
def Spring.new (initialValue : ℚ) (config : SpringConfig) : Spring :=
  { position := initialValue
    velocity := 0
    target := initialValue
    tension := config.tension
    friction := config.friction
    mass := config.mass }

/-- `Spring.setTarget`. -/
def Spring.setTarget (s : Spring) (t : ℚ) : Spring :=
  { s with target := t }

/-- `Spring.update(deltaTime)`: convert `deltaTime` (ms) to seconds capped
at 0.064 s, apply the spring and damping forces, divide by the mass, and
integrate semi-implicitly (velocity first, then position).  Returns the new
state together with the returned value (the new position). -/
def Spring.update (s : Spring) (deltaTime : ℚ) : Spring × ℚ :=
  let dt := min (deltaTime / 1000) 0.064
  let displacement := s.position - s.target
  let springForce := -s.tension * displacement
  let dampingForce := -s.friction * s.velocity
  let acceleration := (springForce + dampingForce) / s.mass
  let velocity := s.velocity + acceleration * dt
  let position := s.position + velocity * dt
  ({ s with velocity := velocity, position := position }, position)

/-- `Spring.isAtRest(threshold)`. -/
def Spring.isAtRest (s : Spring) (threshold : ℚ) : Bool :=
  |s.velocity| < threshold && |s.position - s.target| < threshold

/-- State of a `Spring3D`: three independent scalar springs. -/
structure Spring3D where
  x : Spring
  y : Spring
  z : Spring
deriving DecidableEq, Repr

/-- The `Spring3D` constructor: one scalar spring per axis, all sharing the
same configuration. -/
def Spring3D.new (initialValue : ℚ × ℚ × ℚ) (config : SpringConfig) : Spring3D :=
  { x := Spring.new initialValue.1 config
    y := Spring.new initialValue.2.1 config
    z := Spring.new initialValue.2.2 config }

/-- `Spring3D.setTarget` forwards per axis. -/
def Spring3D.setTarget (s : Spring3D) (target : ℚ × ℚ × ℚ) : Spring3D :=
  { x := s.x.setTarget target.1
    y := s.y.setTarget target.2.1
    z := s.z.setTarget target.2.2 }

/-- `Spring3D.update` advances all three axes and returns the position
triple. -/
def Spring3D.update (s : Spring3D) (deltaTime : ℚ) : Spring3D × (ℚ × ℚ × ℚ) :=
  let rx := s.x.update deltaTime
  let ry := s.y.update deltaTime
  let rz := s.z.update deltaTime
  ({ x := rx.1, y := ry.1, z := rz.1 }, (rx.2, ry.2, rz.2))

/-- A ripple event as stored by the app store (`Ripple` interface):
an opaque id string, a 2D position, a strength, and the creation time in
milliseconds. -/
structure Ripple where
  id : String
  position : ℚ × ℚ
  strength : ℚ
  time : ℚ
deriving DecidableEq, Repr

/-- JavaScript `array.slice(-n)`: the last `n` elements (the whole array
when it is shorter than `n`). -/
def sliceLast (n : ℕ) (l : List α) : List α :=
  l.drop (l.length - n)

/-- `addRipple(position, strength)` of the store: build the new ripple with
the generated id and `time = now` (`Date.now()`), append it, and keep only
the last 10 entries (`[...state.ripples, newRipple].slice(-10)`).  The
impure id generation and clock are passed in as the `id` and `now`
arguments. -/
def addRipple (ripples : List Ripple) (id : String) (position : ℚ × ℚ)
    (strength : ℚ) (now : ℚ) : List Ripple :=
  let newRipple : Ripple := { id := id, position := position, strength := strength, time := now }
  sliceLast 10 (ripples ++ [newRipple])

/-- `clearExpiredRipples()` of the store: keep the ripples strictly younger
than 5000 ms. -/
def clearExpiredRipples (ripples : List Ripple) (now : ℚ) : List Ripple :=
  ripples.filter (fun r => decide (now - r.time < 5000))

/-- One `addRipple` call description: id, position, strength, and the
`Date.now()` value at the call. -/
abbrev RippleCall := String × (ℚ × ℚ) × ℚ × ℚ

/-- The ripple built by `addRipple` from a call description. -/
def mkRipple (c : RippleCall) : Ripple :=
  { id := c.1, position := c.2.1, strength := c.2.2.1, time := c.2.2.2 }

/-- A sequence of `addRipple` calls applied to the store. -/
def applyAddRipples (ripples : List Ripple) (calls : List RippleCall) : List Ripple :=
  calls.foldl (fun l c => addRipple l c.1 c.2.1 c.2.2.1 c.2.2.2) ripples

/-- The three fixed-size uniform arrays filled by the `MercurySurface`
frame callback: `uRipples`, `uRippleStrengths`, `uRippleTimes`. -/
structure PackedUniforms where
  positions : List (ℚ × ℚ)
  strengths : List ℚ
  times : List ℚ
deriving DecidableEq, Repr

/-- The active ripples chosen by the packing loop: it walks the store from
the most recent backwards, keeps ripples whose age is below
`RIPPLE.maxRipples * 1000` ms (the code literally compares against
`maxRipples = 10`, i.e. 10000 ms), and stops once 10 slots are filled. -/
def packActive (ripples : List Ripple) (now : ℚ) : List Ripple :=
  (ripples.reverse.filter (fun r => decide (now - r.time < 10 * 1000))).take 10

/-- The per-frame uniform packing: all 10 slots of the three arrays are
first reset to zero, then slot `j` is overwritten with the `j`-th active
ripple — position, strength, and time converted from ms to seconds. -/
def packRipples (ripples : List Ripple) (now : ℚ) : PackedUniforms :=
  let active := packActive ripples now
  { positions := (List.range 10).map (fun j => ((active[j]?).map Ripple.position).getD (0, 0))
    strengths := (List.range 10).map (fun j => ((active[j]?).map Ripple.strength).getD 0)
    times := (List.range 10).map (fun j => ((active[j]?).map (fun r => r.time / 1000)).getD 0) }

/-- `calculateRipple` from `mercuryVertex.glsl`: a damped traveling wave,
`sin(dist*waveFrequency - time*waveSpeed) * exp(-dist*decay) * exp(-time*0.5) * strength`
with `waveSpeed = 3`, `waveFrequency = 8`, `decay = 0.3`, where `dist` is
the Euclidean distance from the sample point to the ripple center. -/
noncomputable def calculateRipple (pos center : ℝ × ℝ) (strength time : ℝ) : ℝ :=
  let dist := Real.sqrt ((pos.1 - center.1) ^ 2 + (pos.2 - center.2) ^ 2)
  let waveSpeed : ℝ := 3
  let waveFrequency : ℝ := 8
  let decay : ℝ := 0.3
  let wave := Real.sin (dist * waveFrequency - time * waveSpeed)
  let envelope := Real.exp (-dist * decay) * Real.exp (-time * 0.5)
  wave * envelope * strength

/-- The interactive-ripple displacement of `getDisplacedPosition` in
`mercuryVertex.glsl`: sum over the 10 uniform slots, with a per-slot
early-out on `strength > 0.01` and the age window `0 < age < 5` s. -/
noncomputable def rippleSum (positions : List (ℝ × ℝ)) (strengths times : List ℝ)
    (uTime : ℝ) (pos : ℝ × ℝ) : ℝ :=
  ((List.range 10).map (fun i =>
    if strengths.getD i 0 > 0.01 then
      let rippleAge := uTime - times.getD i 0
      if rippleAge > 0 ∧ rippleAge < 5 then
        calculateRipple pos (positions.getD i (0, 0)) (strengths.getD i 0) rippleAge
      else 0
    else 0)).sum

/-- End-to-end ripple field evaluation: pack the store's ripples into the
fixed-size uniforms (CPU side, ℚ) and evaluate the shader's ripple
displacement at a sample point (GPU side, ℝ).  `nowMs` is the wall clock in
milliseconds used by the packing loop; `uTime` is the shader clock in
seconds. -/
noncomputable def evaluateRippleField (ripples : List Ripple) (nowMs : ℚ)
    (uTime : ℝ) (pos : ℝ × ℝ) : ℝ :=
  let u := packRipples ripples nowMs
  rippleSum (u.positions.map (fun p => ((p.1 : ℝ), (p.2 : ℝ))))
    (u.strengths.map (fun q => (q : ℝ))) (u.times.map (fun q => (q : ℝ))) uTime pos

/-- Force field kind (`'attract' | 'repel' | 'vortex'`). -/
inductive FieldType
  | attract
  | repel
  | vortex
deriving DecidableEq, Repr

/-- A force field acting on the particle ensemble (`ForceField`
interface). -/
structure ForceField where
  position : ℝ × ℝ × ℝ
  strength : ℝ
  radius : ℝ
  type : FieldType

/-- Particle system configuration (`ParticleConfig` interface; the THREE
color is its three channels). -/
structure ParticleConfig where
  count : ℕ
  spread : ℝ
  size : ℝ
  colorR : ℝ
  colorG : ℝ
  colorB : ℝ
  magneticStrength : ℝ
  dragCoefficient : ℝ
  gravity : ℝ × ℝ × ℝ

/-- The contribution of one force field to the force on the particle at
`(px, py, pz)`, extracted from the force-field loop body of
`ParticlePhysicsSystem.update`: `distSq` carries the `+ 0.001` ε guard;
inside the radius the magnitude falls off linearly; `attract` adds the
`dist`-normalized direction times the falloff, `repel` subtracts it, and
`vortex` adds the unnormalized planar perpendicular `(-dy, dx, 0)` times
the same falloff (no `z` component and no normalization). -/
noncomputable def fieldForce (field : ForceField) (px py pz : ℝ) : ℝ × ℝ × ℝ :=
  let dx := field.position.1 - px
  let dy := field.position.2.1 - py
  let dz := field.position.2.2 - pz
  let distSq := dx * dx + dy * dy + dz * dz + 0.001
  let dist := Real.sqrt distSq
  if dist < field.radius then
    let strength := field.strength * (1 - dist / field.radius)
    match field.type with
    | FieldType.attract => (dx / dist * strength, dy / dist * strength, dz / dist * strength)
    | FieldType.repel => (-(dx / dist * strength), -(dy / dist * strength), -(dz / dist * strength))
    | FieldType.vortex => (-dy * strength, dx * strength, 0)
  else (0, 0, 0)

/-- The magnetic (shape-seeking) attraction toward a target position, with
the same `+ 0.001` ε-guarded normalization and a constant magnitude equal
to `magneticStrength`. -/
noncomputable def magneticForce (magneticStrength : ℝ) (t p : ℝ × ℝ × ℝ) : ℝ × ℝ × ℝ :=
  let dx := t.1 - p.1
  let dy := t.2.1 - p.2.1
  let dz := t.2.2 - p.2.2
  let distSq := dx * dx + dy * dy + dz * dz + 0.001
  let dist := Real.sqrt distSq
  (dx / dist * magneticStrength, dy / dist * magneticStrength, dz / dist * magneticStrength)

/-- The per-particle body of `ParticlePhysicsSystem.update`: accumulate
gravity, the optional magnetic force, every force-field contribution, and
linear drag, then integrate velocity first and position second with the
clamped `dt`.  Returns `(newPosition, newVelocity)`. -/
noncomputable def updateParticle (cfg : ParticleConfig) (fields : List ForceField)
    (target : Option (ℝ × ℝ × ℝ)) (pos vel : ℝ × ℝ × ℝ) (dt : ℝ) :
    (ℝ × ℝ × ℝ) × (ℝ × ℝ × ℝ) :=
  let f0 := cfg.gravity
  let f1 :=
    match target with
    | some t =>
        if cfg.magneticStrength > 0 then
          let m := magneticForce cfg.magneticStrength t pos
          (f0.1 + m.1, f0.2.1 + m.2.1, f0.2.2 + m.2.2)
        else f0
    | none => f0
  let f2 := fields.foldl (fun f field =>
    let g := fieldForce field pos.1 pos.2.1 pos.2.2
    (f.1 + g.1, f.2.1 + g.2.1, f.2.2 + g.2.2)) f1
  let f3 := (f2.1 - vel.1 * cfg.dragCoefficient, f2.2.1 - vel.2.1 * cfg.dragCoefficient,
    f2.2.2 - vel.2.2 * cfg.dragCoefficient)
  let vel2 := (vel.1 + f3.1 * dt, vel.2.1 + f3.2.1 * dt, vel.2.2 + f3.2.2 * dt)
  let pos2 := (pos.1 + vel2.1 * dt, pos.2.1 + vel2.2.1 * dt, pos.2.2 + vel2.2.2 * dt)
  (pos2, vel2)

/-- State of a `ParticlePhysicsSystem`: the five flat typed arrays, the
optional flat target-position array, the immutable count, the force-field
list, the configuration, and the spatial hash grid scaffold. -/
structure PState where
  positions : List ℝ
  velocities : List ℝ
  colors : List ℝ
  sizes : List ℝ
  lifetimes : List ℝ
  targetPositions : Option (List ℝ)
  count : ℕ
  forceFields : List ForceField
  config : ParticleConfig
  gridSize : ℝ
  grid : List ((ℤ × ℤ × ℤ) × List ℕ)

/-- The positions written by `initializeParticles`: for particle `i` a
random point in a sphere via spherical coordinates (`rng k` stands for the
`k`-th `Math.random()` call; the loop body draws 10 per particle). -/
noncomputable def initPositions (count : ℕ) (cfg : ParticleConfig) (rng : ℕ → ℝ) : List ℝ :=
  (List.range count).flatMap (fun i =>
    let theta := rng (10 * i) * Real.pi * 2
    let phi := Real.arccos (2 * rng (10 * i + 1) - 1)
    let radius := cfg.spread * rng (10 * i + 2) ^ ((1 : ℝ) / 3)
    [radius * Real.sin phi * Real.cos theta,
     radius * Real.sin phi * Real.sin theta,
     radius * Real.cos phi])

/-- The initial velocities: slight random motion in `[-0.05, 0.05]` per
component. -/
noncomputable def initVelocities (count : ℕ) (rng : ℕ → ℝ) : List ℝ :=
  (List.range count).flatMap (fun i =>
    [(rng (10 * i + 3) - 0.5) * 0.1, (rng (10 * i + 4) - 0.5) * 0.1,
     (rng (10 * i + 5) - 0.5) * 0.1])

/-- The initial colors: the configured color with ±0.05 variation per
channel. -/
noncomputable def initColors (count : ℕ) (cfg : ParticleConfig) (rng : ℕ → ℝ) : List ℝ :=
  (List.range count).flatMap (fun i =>
    [cfg.colorR + (rng (10 * i + 6) - 0.5) * 0.1,
     cfg.colorG + (rng (10 * i + 7) - 0.5) * 0.1,
     cfg.colorB + (rng (10 * i + 8) - 0.5) * 0.1])

/-- The initial sizes: the configured size scaled by a random factor in
`[0.5, 1)`. -/
noncomputable def initSizes (count : ℕ) (cfg : ParticleConfig) (rng : ℕ → ℝ) : List ℝ :=
  (List.range count).map (fun i => cfg.size * (0.5 + rng (10 * i + 9) * 0.5))

/-- The initial lifetimes: all 1.0. -/
noncomputable def initLifetimes (count : ℕ) : List ℝ :=
  (List.range count).map (fun _ => 1)

/-- The `ParticlePhysicsSystem` constructor: fixed count, empty force
fields, unit grid size, freshly initialized arrays, no target positions. -/
noncomputable def ParticlePhysicsSystem.new (cfg : ParticleConfig) (rng : ℕ → ℝ) : PState :=
  { positions := initPositions cfg.count cfg rng
    velocities := initVelocities cfg.count rng
    colors := initColors cfg.count cfg rng
    sizes := initSizes cfg.count cfg rng
    lifetimes := initLifetimes cfg.count
    targetPositions := none
    count := cfg.count
    forceFields := []
    config := cfg
    gridSize := 1
    grid := [] }

/-- `setTargetPositions(targets)`: reject (warn and return, mutating
nothing) when the length differs from `count * 3`, otherwise store the
array. -/
def PState.setTargetPositions (s : PState) (targets : List ℝ) : PState :=
  if targets.length ≠ s.count * 3 then s
  else { s with targetPositions := some targets }

/-- `addForceField(field)`. -/
def PState.addForceField (s : PState) (field : ForceField) : PState :=
  { s with forceFields := s.forceFields ++ [field] }

/-- `clearForceFields()`. -/
def PState.clearForceFields (s : PState) : PState :=
  { s with forceFields := [] }

/-- `getGridKey`: floor of each coordinate over the grid size (the code
renders the triple as a string key; the triple itself is the content). -/
noncomputable def getGridKey (gridSize x y z : ℝ) : ℤ × ℤ × ℤ :=
  (⌊x / gridSize⌋, ⌊y / gridSize⌋, ⌊z / gridSize⌋)

/-- Insertion into the spatial hash (association list mirroring the
`Map<string, number[]>`): push onto the existing bucket or create it. -/
def gridInsert (g : List ((ℤ × ℤ × ℤ) × List ℕ)) (key : ℤ × ℤ × ℤ) (i : ℕ) :
    List ((ℤ × ℤ × ℤ) × List ℕ) :=
  if g.any (fun e => decide (e.1 = key)) then
    g.map (fun e => if e.1 = key then (e.1, e.2 ++ [i]) else e)
  else g ++ [(key, [i])]

/-- `ParticlePhysicsSystem.update(deltaTime)`: clamp `dt` to 0.033 s, clear
the spatial grid, then for each particle integrate forces and re-add it to
the grid at its new position. -/
noncomputable def PState.update (s : PState) (deltaTime : ℝ) : PState :=
  let dt := min deltaTime 0.033
  let results := (List.range s.count).map (fun i =>
    let pos := (s.positions.getD (i * 3) 0, s.positions.getD (i * 3 + 1) 0,
      s.positions.getD (i * 3 + 2) 0)
    let vel := (s.velocities.getD (i * 3) 0, s.velocities.getD (i * 3 + 1) 0,
      s.velocities.getD (i * 3 + 2) 0)
    let target := s.targetPositions.map (fun t =>
      (t.getD (i * 3) 0, t.getD (i * 3 + 1) 0, t.getD (i * 3 + 2) 0))
    updateParticle s.config s.forceFields target pos vel dt)
  { s with
    positions := results.flatMap (fun r => [r.1.1, r.1.2.1, r.1.2.2])
    velocities := results.flatMap (fun r => [r.2.1, r.2.2.1, r.2.2.2])
    grid := (results.map (fun r => r.1)).enum.foldl
      (fun g ip => gridInsert g (getGridKey s.gridSize ip.2.1 ip.2.2.1 ip.2.2.2) ip.1) [] }

/-- `reset()`: run `initializeParticles()` again (overwriting the five
arrays in place), drop the target positions, and clear the force fields;
count, configuration, grid size and grid are untouched. -/
noncomputable def PState.reset (s : PState) (rng : ℕ → ℝ) : PState :=
  { s with
    positions := initPositions s.count s.config rng
    velocities := initVelocities s.count rng
    colors := initColors s.count s.config rng
    sizes := initSizes s.count s.config rng
    lifetimes := initLifetimes s.count
    targetPositions := none
    forceFields := [] }

end Portfolio

namespace Portfolio

/-- A spring whose position equals its target and whose velocity is zero is
a fixed point of `Spring.update`: all forces vanish, so the state is
returned unchanged. -/
theorem Spring.update_fixed_of_equilibrium (s : Spring) (deltaTime : ℚ)
    (h1 : s.position = s.target) (h2 : s.velocity = 0) :
    (s.update deltaTime).1 = s := by
  cases s
  simp only [Spring.update]
  simp_all

/-- C1: `Spring.update(deltaTime)` advances the state by
`dt = min(deltaTime/1000, 0.064)` seconds using semi-implicit Euler:
`springForce = -tension*(position - target)`, `dampingForce = -friction*velocity`,
`acceleration = (springForce + dampingForce)/mass`, then
`velocity' = velocity + acceleration*dt` followed by
`position' = position + velocity'*dt`, and it returns the new position
(the target and configuration are untouched). -/
theorem spring_update_semi_implicit_euler (s : Spring) (deltaTime : ℚ) :
    (s.update deltaTime).1.velocity
        = s.velocity
          + (-s.tension * (s.position - s.target) + -s.friction * s.velocity) / s.mass
            * min (deltaTime / 1000) 0.064
      ∧ (s.update deltaTime).1.position
        = s.position + (s.update deltaTime).1.velocity * min (deltaTime / 1000) 0.064
      ∧ (s.update deltaTime).2 = (s.update deltaTime).1.position
      ∧ (s.update deltaTime).1.target = s.target :=
  ⟨rfl, rfl, rfl, rfl⟩

/-- C4 counterexample: the `Spring` constructor performs no validation, so
constructing a spring with `mass = 0` is not rejected: a `Spring` instance
with `mass = 0` is created. -/
theorem spring_zero_mass_not_rejected :
    (Spring.new 0 ⟨400, 30, 0⟩).mass = 0 := rfl

/-- C4 amended: construction never fails and performs no validation; for
every initial value and every tension/friction, a configuration with
`mass = 0` yields a live `Spring` instance whose fields are the given
values stored verbatim (zero velocity, target equal to the initial value,
and mass exactly 0); `update` then divides by `mass` with no guard. -/
theorem spring_new_stores_config_verbatim (v t f : ℚ) :
    Spring.new v ⟨t, f, 0⟩
      = { position := v, velocity := 0, target := v,
          tension := t, friction := f, mass := 0 } := rfl

/-- Folding `Spring3D.update` over any list of delta times leaves the
y-axis spring untouched when it starts at equilibrium. -/
theorem foldl_update_fixed_y (dts : List ℚ) (s : Spring3D)
    (h1 : s.y.position = s.y.target) (h2 : s.y.velocity = 0) :
    (dts.foldl (fun s dt => (s.update dt).1) s).y = s.y := by
  induction dts generalizing s with
  | nil => rfl
  | cons dt dts ih =>
      have hy : (s.update dt).1.y = s.y :=
        Spring.update_fixed_of_equilibrium s.y dt h1 h2
      simp only [List.foldl_cons]
      rw [ih _ (by rw [hy]; exact h1) (by rw [hy]; exact h2), hy]

/-- Folding `Spring3D.update` over any list of delta times leaves the
z-axis spring untouched when it starts at equilibrium. -/
theorem foldl_update_fixed_z (dts : List ℚ) (s : Spring3D)
    (h1 : s.z.position = s.z.target) (h2 : s.z.velocity = 0) :
    (dts.foldl (fun s dt => (s.update dt).1) s).z = s.z := by
  induction dts generalizing s with
  | nil => rfl
  | cons dt dts ih =>
      have hz : (s.update dt).1.z = s.z :=
        Spring.update_fixed_of_equilibrium s.z dt h1 h2
      simp only [List.foldl_cons]
      rw [ih _ (by rw [hz]; exact h1) (by rw [hz]; exact h2), hz]

/-- C8: a `Spring3D` constructed from any initial value `(a, b, c)` whose
target is then changed only in its X component evolves with the Y and Z
positions and velocities unchanged, for any number of `update` calls with
any delta times. -/
theorem spring3d_axes_independent (a b c x : ℚ) (cfg : SpringConfig) (dts : List ℚ) :
    (dts.foldl (fun s dt => (s.update dt).1)
        ((Spring3D.new (a, b, c) cfg).setTarget (x, b, c))).y.position = b
      ∧ (dts.foldl (fun s dt => (s.update dt).1)
          ((Spring3D.new (a, b, c) cfg).setTarget (x, b, c))).y.velocity = 0
      ∧ (dts.foldl (fun s dt => (s.update dt).1)
          ((Spring3D.new (a, b, c) cfg).setTarget (x, b, c))).z.position = c
      ∧ (dts.foldl (fun s dt => (s.update dt).1)
          ((Spring3D.new (a, b, c) cfg).setTarget (x, b, c))).z.velocity = 0 := by
  have hy := foldl_update_fixed_y dts ((Spring3D.new (a, b, c) cfg).setTarget (x, b, c))
    rfl rfl
  have hz := foldl_update_fixed_z dts ((Spring3D.new (a, b, c) cfg).setTarget (x, b, c))
    rfl rfl
  rw [hy, hz]
  exact ⟨rfl, rfl, rfl, rfl⟩

/-- `sliceLast n` keeps at most `n` elements. -/
theorem length_sliceLast (n : ℕ) (l : List α) :
    (sliceLast n l).length = min l.length n := by
  simp only [sliceLast, List.length_drop]
  omega

/-- `sliceLast n` of a list of at most `n` elements is the list itself. -/
theorem sliceLast_of_le_length (n : ℕ) (l : List α) (h : l.length ≤ n) :
    sliceLast n l = l := by
  simp [sliceLast, Nat.sub_eq_zero_of_le h]

/-- `sliceLast n` is a suffix, hence a sublist. -/
theorem sliceLast_sublist (n : ℕ) (l : List α) : (sliceLast n l).Sublist l :=
  List.drop_sublist _ _

/-- Taking the last `n` elements twice around an append collapses: keeping
the last `n` of `x` before appending `y` does not change the last `n` of
the whole. -/
theorem sliceLast_append_sliceLast (n : ℕ) (x y : List α) :
    sliceLast n (sliceLast n x ++ y) = sliceLast n (x ++ y) := by
  simp only [sliceLast]
  rw [← List.drop_append_of_le_length (by omega), List.drop_drop]
  congr 1
  simp only [List.length_drop, List.length_append]
  omega

/-- Closed form for a sequence of `addRipple` calls: starting from a store
of at most 10 live ripples, the result is the last 10 of the old store
followed by all ripples built from the calls, in call order. -/
theorem applyAddRipples_eq (calls : List RippleCall) (l : List Ripple)
    (h : l.length ≤ 10) :
    applyAddRipples l calls = sliceLast 10 (l ++ calls.map mkRipple) := by
  induction calls generalizing l with
  | nil => simp [applyAddRipples, sliceLast_of_le_length 10 l h]
  | cons c cs ih =>
      have hstep : addRipple l c.1 c.2.1 c.2.2.1 c.2.2.2
          = sliceLast 10 (l ++ [mkRipple c]) := rfl
      have hlen : (addRipple l c.1 c.2.1 c.2.2.1 c.2.2.2).length ≤ 10 := by
        rw [hstep, length_sliceLast]; omega
      calc applyAddRipples l (c :: cs)
          = applyAddRipples (addRipple l c.1 c.2.1 c.2.2.1 c.2.2.2) cs := rfl
        _ = sliceLast 10 (addRipple l c.1 c.2.1 c.2.2.1 c.2.2.2 ++ cs.map mkRipple) :=
            ih _ hlen
        _ = sliceLast 10 ((l ++ [mkRipple c]) ++ cs.map mkRipple) := by
            rw [hstep, sliceLast_append_sliceLast]
        _ = sliceLast 10 (l ++ (c :: cs).map mkRipple) := by
            rw [List.append_assoc]; rfl

/-- C3: after any sequence of 15 `addRipple` calls starting from an empty
store, the live collection is exactly the 10 most recently added ripples
(the 5 oldest are evicted, so no reader of the store — field evaluation or
uniform packing — can reach them), and no intermediate state ever holds
more than 10 ripples. -/
theorem addRipple_fifteen_keeps_last_ten (calls : List RippleCall)
    (h : calls.length = 15) :
    applyAddRipples [] calls = (calls.map mkRipple).drop 5
      ∧ (applyAddRipples [] calls).length = 10
      ∧ ∀ k : ℕ, (applyAddRipples [] (calls.take k)).length ≤ 10 := by
  have hmain := applyAddRipples_eq calls [] (by simp)
  simp only [List.nil_append] at hmain
  refine ⟨?_, ?_, ?_⟩
  · rw [hmain]
    simp [sliceLast, List.length_map, h]
  · rw [hmain, length_sliceLast]
    simp [h]
  · intro k
    have := applyAddRipples_eq (calls.take k) [] (by simp)
    rw [this, length_sliceLast]
    omega

/-- Concrete sequence of 15 `addRipple` calls with increasing times. -/
def calls15 : List RippleCall :=
  (List.range 15).map (fun i => (toString i, ((i : ℚ), 0), 1, (i : ℚ)))

/-- Witness for C3 at a concrete sequence of 15 calls. -/
theorem addRipple_fifteen_keeps_last_ten_witness :
    calls15.length = 15
      ∧ applyAddRipples [] calls15 = (calls15.map mkRipple).drop 5 :=
  ⟨by decide, (addRipple_fifteen_keeps_last_ten calls15 (by decide)).1⟩

/-- C9: the live ripple collection stays ordered by creation time, oldest
first.  Under the ordering invariant and a monotone clock, `addRipple`
preserves the order, appends at the tail when below capacity, evicts
exactly the head at capacity — and that head is the oldest live ripple —
while `clearExpiredRipples` keeps survivors in their relative order. -/
theorem ripple_store_time_ordered (l : List Ripple) (id : String)
    (pos : ℚ × ℚ) (strength now : ℚ)
    (hsort : l.Pairwise (fun a b => a.time ≤ b.time))
    (hmono : ∀ r ∈ l, r.time ≤ now) :
    (addRipple l id pos strength now).Pairwise (fun a b => a.time ≤ b.time)
      ∧ (l.length < 10 →
          addRipple l id pos strength now
            = l ++ [{ id := id, position := pos, strength := strength, time := now }])
      ∧ (l.length = 10 →
          addRipple l id pos strength now
              = l.drop 1 ++ [{ id := id, position := pos, strength := strength, time := now }]
            ∧ ∀ h0 ∈ l.head?, ∀ r ∈ l, h0.time ≤ r.time)
      ∧ (clearExpiredRipples l now).Sublist l
      ∧ (clearExpiredRipples l now).Pairwise (fun a b => a.time ≤ b.time) := by
  have happ : (l ++ [({ id := id, position := pos, strength := strength,
                        time := now } : Ripple)]).Pairwise
      (fun a b => a.time ≤ b.time) := by
    rw [List.pairwise_append]
    exact ⟨hsort, List.pairwise_singleton _ _, by
      intro a ha b hb
      rw [List.mem_singleton] at hb
      subst hb
      exact hmono a ha⟩
  refine ⟨List.Pairwise.sublist (sliceLast_sublist 10 _) happ, ?_, ?_,
    List.filter_sublist l, ?_⟩
  · intro hlt
    exact sliceLast_of_le_length 10 _ (by simp; omega)
  · refine fun h10 => ⟨?_, ?_⟩
    · show sliceLast 10 _ = _
      rw [sliceLast]
      simp only [List.length_append, h10, List.length_singleton]
      rw [List.drop_append_of_le_length (by omega)]
    · intro h0 hh0 r hr
      cases l with
      | nil => simp at h10
      | cons a rest =>
          simp only [List.head?_cons, Option.mem_def, Option.some.injEq] at hh0
          subst hh0
          rw [List.pairwise_cons] at hsort
          rcases List.mem_cons.1 hr with h | h
          · exact h ▸ le_refl _
          · exact hsort.1 r h
  · exact hsort.filter _

/-- Concrete sorted 10-ripple store used by the C9 witness. -/
def store10 : List Ripple :=
  (List.range 10).map (fun i => { id := toString i, position := (0, 0), strength := 1, time := (i : ℚ) })

/-- Witness for C9 at a concrete full store: adding an 11th ripple evicts
exactly the head. -/
theorem ripple_store_time_ordered_witness :
    store10.Pairwise (fun a b => a.time ≤ b.time)
      ∧ addRipple store10 "w" (0, 0) 1 100
          = store10.drop 1 ++ [{ id := "w", position := (0, 0), strength := 1, time := 100 }] :=
  ⟨by decide,
    ((ripple_store_time_ordered store10 "w" (0, 0) 1 100 (by decide)
      (by decide)).2.2.1 (by decide)).1⟩

/-- The packing loop never selects more than 10 ripples. -/
theorem length_packActive_le (ripples : List Ripple) (now : ℚ) :
    (packActive ripples now).length ≤ 10 := by
  simp only [packActive, List.length_take]
  omega

/-- C6: the per-frame uniform packing always produces arrays of exactly
length 10; slot `j` carries the `j`-th active ripple (most recent first,
time converted to seconds), every slot beyond the active count carries a
strength of 0 (and zero position and time), and under the store ordering
invariant the filled slots are in most-recent-first order (non-increasing
creation times). -/
theorem pack_uniforms_shape (ripples : List Ripple) (now : ℚ)
    (hsort : ripples.Pairwise (fun a b => a.time ≤ b.time)) :
    (packRipples ripples now).positions.length = 10
      ∧ (packRipples ripples now).strengths.length = 10
      ∧ (packRipples ripples now).times.length = 10
      ∧ (∀ j : ℕ, (packActive ripples now).length ≤ j →
          (packRipples ripples now).strengths.getD j 0 = 0
            ∧ (packRipples ripples now).positions.getD j (0, 0) = (0, 0)
            ∧ (packRipples ripples now).times.getD j 0 = 0)
      ∧ (∀ j : ℕ, ∀ hj : j < (packActive ripples now).length,
          (packRipples ripples now).strengths.getD j 0
              = ((packActive ripples now).get ⟨j, hj⟩).strength
            ∧ (packRipples ripples now).positions.getD j (0, 0)
              = ((packActive ripples now).get ⟨j, hj⟩).position
            ∧ (packRipples ripples now).times.getD j 0
              = ((packActive ripples now).get ⟨j, hj⟩).time / 1000)
      ∧ (packActive ripples now).Pairwise (fun a b => b.time ≤ a.time) := by
  have hlen := length_packActive_le ripples now
  refine ⟨by simp [packRipples], by simp [packRipples], by simp [packRipples], ?_, ?_, ?_⟩
  · intro j hj
    have hnone : (packActive ripples now)[j]? = none :=
      List.getElem?_eq_none hj
    by_cases h10 : j < 10
    · refine ⟨?_, ?_, ?_⟩ <;>
        simp [packRipples, List.getD_eq_getElem?_getD, List.getElem?_range h10, hnone]
    · have hr : (List.range 10)[j]? = none :=
        List.getElem?_eq_none (by simpa using Nat.le_of_not_lt h10)
      refine ⟨?_, ?_, ?_⟩ <;>
        simp [packRipples, List.getD_eq_getElem?_getD, hr]
  · intro j hj
    have h10 : j < 10 := lt_of_lt_of_le hj hlen
    have hsome : (packActive ripples now)[j]? = some ((packActive ripples now).get ⟨j, hj⟩) :=
      List.getElem?_eq_getElem hj
    refine ⟨?_, ?_, ?_⟩ <;>
      simp [packRipples, List.getD_eq_getElem?_getD, List.getElem?_range h10, hsome]
  · have hrev : ripples.reverse.Pairwise (fun a b => b.time ≤ a.time) :=
      List.pairwise_reverse.mpr hsort
    exact List.Pairwise.sublist (List.take_sublist _ _) (hrev.filter _)

/-- Concrete 3-ripple store used by the C6 witness. -/
def ripples3 : List Ripple :=
  [{ id := "a", position := (1, 2), strength := 1, time := 0 },
   { id := "b", position := (3, 4), strength := 2, time := 10 },
   { id := "c", position := (5, 6), strength := 3, time := 20 }]

/-- Witness for C6 at a concrete 3-ripple store: the arrays have length 10
and an unused trailing slot carries strength 0. -/
theorem pack_uniforms_shape_witness :
    ripples3.Pairwise (fun a b => a.time ≤ b.time)
      ∧ (packRipples ripples3 20).strengths.length = 10
      ∧ (packRipples ripples3 20).strengths.getD 3 0 = 0 :=
  ⟨by decide, (pack_uniforms_shape ripples3 20 (by decide)).2.1,
    ((pack_uniforms_shape ripples3 20 (by decide)).2.2.2.1 3
      (by norm_num [packActive, ripples3])).1⟩

/-- C2 counterexample: a ripple added at `(0, 0)` with strength 1 at time
`t = 0` contributes exactly 0 to the displacement at sample point `(0, 0)`
at `t = 0` — not a nonzero value — because the shader's age guard
`rippleAge > 0.0` excludes a ripple at the very instant of its creation. -/
theorem ripple_eval_zero_at_creation :
    evaluateRippleField (addRipple [] "r0" (0, 0) 1 0) 0 0 (0, 0) = 0 := by
  norm_num [evaluateRippleField, rippleSum, packRipples, packActive, addRipple,
    sliceLast, calculateRipple, List.range_succ]

/-- C2 amended: after a ripple is added at `(0, 0)` with strength 1.0 at
`t = 0`, evaluating the displacement at sample point `(0, 0)` returns
exactly 0 both at `t = 0` (the shader requires a strictly positive age, so
a just-created ripple contributes nothing) and at `t = 6` s (past the 5 s
age window). -/
theorem ripple_eval_scenario :
    evaluateRippleField (addRipple [] "r0" (0, 0) 1 0) 0 0 (0, 0) = 0
      ∧ evaluateRippleField (addRipple [] "r0" (0, 0) 1 0) 6000 6 (0, 0) = 0 := by
  constructor <;>
    norm_num [evaluateRippleField, rippleSum, packRipples, packActive, addRipple,
      sliceLast, calculateRipple, List.range_succ]

/-- Evaluation of the vortex branch of the force-field loop: when the code
guard `sqrt(distSq + 0.001) < radius` holds, the contribution is the
unnormalized planar perpendicular `(-dy, dx, 0)` of the radial offset
times `strength * (1 - dist/radius)`. -/
theorem fieldForce_vortex_eval (field : ForceField) (px py pz : ℝ)
    (hv : field.type = FieldType.vortex)
    (hin : Real.sqrt ((field.position.1 - px) * (field.position.1 - px)
        + (field.position.2.1 - py) * (field.position.2.1 - py)
        + (field.position.2.2 - pz) * (field.position.2.2 - pz) + 0.001) < field.radius) :
    fieldForce field px py pz
        = (-(field.position.2.1 - py)
              * (field.strength * (1 - Real.sqrt ((field.position.1 - px) * (field.position.1 - px)
                  + (field.position.2.1 - py) * (field.position.2.1 - py)
                  + (field.position.2.2 - pz) * (field.position.2.2 - pz) + 0.001) / field.radius)),
           (field.position.1 - px)
              * (field.strength * (1 - Real.sqrt ((field.position.1 - px) * (field.position.1 - px)
                  + (field.position.2.1 - py) * (field.position.2.1 - py)
                  + (field.position.2.2 - pz) * (field.position.2.2 - pz) + 0.001) / field.radius)),
           0) := by
  obtain ⟨⟨fx, fy, fz⟩, fs, fr, ft⟩ := field
  simp only at hv
  subst hv
  simp only [fieldForce, if_pos hin]

/-- C5 amended: for a vortex force field containing the particle (the code
guard `sqrt(distSq + 0.001) < radius`), the contributed force is the
planar perpendicular `(-dy, dx, 0)` of the radial offset scaled by
`strength * (1 - dist/radius)` — perpendicular to the radial direction
(zero dot product) but, unlike `attract`/`repel`, *not* normalized by the
ε-guarded distance, so its magnitude carries an extra factor of the planar
distance. -/
theorem vortex_force_perpendicular_unnormalized (field : ForceField) (px py pz : ℝ)
    (hv : field.type = FieldType.vortex)
    (hin : Real.sqrt ((field.position.1 - px) * (field.position.1 - px)
        + (field.position.2.1 - py) * (field.position.2.1 - py)
        + (field.position.2.2 - pz) * (field.position.2.2 - pz) + 0.001) < field.radius) :
    fieldForce field px py pz
        = (-(field.position.2.1 - py)
              * (field.strength * (1 - Real.sqrt ((field.position.1 - px) * (field.position.1 - px)
                  + (field.position.2.1 - py) * (field.position.2.1 - py)
                  + (field.position.2.2 - pz) * (field.position.2.2 - pz) + 0.001) / field.radius)),
           (field.position.1 - px)
              * (field.strength * (1 - Real.sqrt ((field.position.1 - px) * (field.position.1 - px)
                  + (field.position.2.1 - py) * (field.position.2.1 - py)
                  + (field.position.2.2 - pz) * (field.position.2.2 - pz) + 0.001) / field.radius)),
           0)
      ∧ (fieldForce field px py pz).1 * (field.position.1 - px)
          + (fieldForce field px py pz).2.1 * (field.position.2.1 - py)
          + (fieldForce field px py pz).2.2 * (field.position.2.2 - pz) = 0 := by
  have heval := fieldForce_vortex_eval field px py pz hv hin
  refine ⟨heval, ?_⟩
  rw [heval]
  ring

/-- Concrete vortex field used for claim C5: centered at the origin,
strength 1, radius 4. -/
noncomputable def vortexField : ForceField :=
  { position := (0, 0, 0), strength := 1, radius := 4, type := FieldType.vortex }

/-- C5 counterexample: for the particle at `(2, 0, 0)` strictly inside
`vortexField`, the squared magnitude of the contributed force is *not*
`(strength * (1 - dist/radius))^2` — the claimed magnitude of an
ε-guard-normalized direction scaled like attract/repel — because the
vortex branch never normalizes its perpendicular vector. -/
theorem vortex_force_not_unit_scaled :
    ¬ ((fieldForce vortexField 2 0 0).1 ^ 2 + (fieldForce vortexField 2 0 0).2.1 ^ 2
          + (fieldForce vortexField 2 0 0).2.2 ^ 2
        = (vortexField.strength
            * (1 - Real.sqrt ((vortexField.position.1 - 2) * (vortexField.position.1 - 2)
                + (vortexField.position.2.1 - 0) * (vortexField.position.2.1 - 0)
                + (vortexField.position.2.2 - 0) * (vortexField.position.2.2 - 0) + 0.001)
              / vortexField.radius)) ^ 2) := by
  have harg : (vortexField.position.1 - 2) * (vortexField.position.1 - 2)
      + (vortexField.position.2.1 - 0) * (vortexField.position.2.1 - 0)
      + (vortexField.position.2.2 - 0) * (vortexField.position.2.2 - 0) + 0.001 = 4.001 := by
    norm_num [vortexField]
  have h4 : Real.sqrt 4.001 < 4 := by
    rw [Real.sqrt_lt' (by norm_num : (0:ℝ) < 4)]
    norm_num
  have hin : Real.sqrt ((vortexField.position.1 - 2) * (vortexField.position.1 - 2)
      + (vortexField.position.2.1 - 0) * (vortexField.position.2.1 - 0)
      + (vortexField.position.2.2 - 0) * (vortexField.position.2.2 - 0) + 0.001)
      < vortexField.radius := by
    rw [harg]
    exact h4
  have hF := fieldForce_vortex_eval vortexField 2 0 0 rfl hin
  rw [hF, harg]
  simp only [vortexField]
  have hs : (0:ℝ) < 1 - Real.sqrt 4.001 / 4 := by
    have h0 : (0:ℝ) ≤ Real.sqrt 4.001 := Real.sqrt_nonneg _
    nlinarith
  intro h
  nlinarith [h, hs]

/-- Witness for C5 at the concrete vortex field and particle: the guard
holds and the contributed force is perpendicular to the radial offset. -/
theorem vortex_force_perpendicular_witness :
    Real.sqrt ((vortexField.position.1 - 2) * (vortexField.position.1 - 2)
        + (vortexField.position.2.1 - 0) * (vortexField.position.2.1 - 0)
        + (vortexField.position.2.2 - 0) * (vortexField.position.2.2 - 0) + 0.001)
      < vortexField.radius
      ∧ (fieldForce vortexField 2 0 0).1 * (vortexField.position.1 - 2)
          + (fieldForce vortexField 2 0 0).2.1 * (vortexField.position.2.1 - 0)
          + (fieldForce vortexField 2 0 0).2.2 * (vortexField.position.2.2 - 0) = 0 := by
  have hin : Real.sqrt ((vortexField.position.1 - 2) * (vortexField.position.1 - 2)
      + (vortexField.position.2.1 - 0) * (vortexField.position.2.1 - 0)
      + (vortexField.position.2.2 - 0) * (vortexField.position.2.2 - 0) + 0.001)
      < vortexField.radius := by
    rw [show (vortexField.position.1 - 2) * (vortexField.position.1 - 2)
        + (vortexField.position.2.1 - 0) * (vortexField.position.2.1 - 0)
        + (vortexField.position.2.2 - 0) * (vortexField.position.2.2 - 0) + 0.001
        = (4.001 : ℝ) from by norm_num [vortexField]]
    show Real.sqrt 4.001 < 4
    rw [Real.sqrt_lt' (by norm_num : (0:ℝ) < 4)]
    norm_num
  exact ⟨hin, (vortex_force_perpendicular_unnormalized vortexField 2 0 0 rfl hin).2⟩

/-- C7: `setTargetPositions` with an array whose length differs from
`count * 3` is rejected (the code logs a warning and returns) without
mutating any state, and without raising any fault: the state is returned
unchanged. -/
theorem set_target_positions_rejects_mismatch (s : PState) (targets : List ℝ)
    (h : targets.length ≠ s.count * 3) :
    s.setTargetPositions targets = s := by
  simp [PState.setTargetPositions, h]

/-- A minimal concrete particle configuration for witnesses. -/
noncomputable def cfgW : ParticleConfig :=
  { count := 1, spread := 5, size := 0.1, colorR := 0.7, colorG := 0.7, colorB := 0.8,
    magneticStrength := 0, dragCoefficient := 0.1, gravity := (0, -0.5, 0) }

/-- A concrete one-particle system state (with stored target positions and
a force field, so that clearing is observable). -/
noncomputable def systemW : PState :=
  { positions := [1, 2, 3], velocities := [0, 0, 0], colors := [1, 1, 1],
    sizes := [1], lifetimes := [1], targetPositions := some [4, 5, 6],
    count := 1, forceFields := [vortexField], config := cfgW, gridSize := 1, grid := [] }

/-- Witness for C7: an empty target array has the wrong length for a
one-particle system and the call leaves the state unchanged. -/
theorem set_target_positions_rejects_witness :
    ([] : List ℝ).length ≠ systemW.count * 3
      ∧ systemW.setTargetPositions [] = systemW :=
  ⟨by decide, set_target_positions_rejects_mismatch systemW [] (by decide)⟩

/-- Flat arrays produced by mapping a 3-element block over `range n` have
length `n * 3`. -/
theorem length_flatMap_three {f : ℕ → List ℝ} (n : ℕ) (hf : ∀ i, (f i).length = 3) :
    ((List.range n).flatMap f).length = n * 3 := by
  simp only [List.flatMap, List.length_flatten, List.map_map]
  have h : (List.length ∘ f) = fun _ : ℕ => 3 := funext hf
  rw [h, List.map_const', List.sum_replicate, List.length_range, smul_eq_mul, Nat.mul_comm]

/-- `initializeParticles` writes `count * 3` position entries. -/
theorem length_initPositions (count : ℕ) (cfg : ParticleConfig) (rng : ℕ → ℝ) :
    (initPositions count cfg rng).length = count * 3 :=
  length_flatMap_three count (fun _ => rfl)

/-- `initializeParticles` writes `count * 3` velocity entries. -/
theorem length_initVelocities (count : ℕ) (rng : ℕ → ℝ) :
    (initVelocities count rng).length = count * 3 :=
  length_flatMap_three count (fun _ => rfl)

/-- `initializeParticles` writes `count * 3` color entries. -/
theorem length_initColors (count : ℕ) (cfg : ParticleConfig) (rng : ℕ → ℝ) :
    (initColors count cfg rng).length = count * 3 :=
  length_flatMap_three count (fun _ => rfl)

/-- `initializeParticles` writes `count` sizes. -/
theorem length_initSizes (count : ℕ) (cfg : ParticleConfig) (rng : ℕ → ℝ) :
    (initSizes count cfg rng).length = count := by
  simp [initSizes]

/-- `initializeParticles` writes `count` lifetimes. -/
theorem length_initLifetimes (count : ℕ) :
    (initLifetimes count).length = count := by
  simp [initLifetimes]

/-- C10: `reset()` reinitializes the five particle arrays with fresh
`initializeParticles` data of the same lengths as before (the in-place
overwrite of the existing buffers — no reallocation, observable here as
length preservation under the constructor's length invariant), sets the
target positions back to `none` (free-floating mode), and removes all
force fields; count and configuration are untouched. -/
theorem reset_reinitializes_in_place (s : PState) (rng : ℕ → ℝ)
    (hp : s.positions.length = s.count * 3)
    (hv : s.velocities.length = s.count * 3)
    (hc : s.colors.length = s.count * 3)
    (hsz : s.sizes.length = s.count)
    (hlt : s.lifetimes.length = s.count) :
    (s.reset rng).positions = initPositions s.count s.config rng
      ∧ (s.reset rng).velocities = initVelocities s.count rng
      ∧ (s.reset rng).colors = initColors s.count s.config rng
      ∧ (s.reset rng).sizes = initSizes s.count s.config rng
      ∧ (s.reset rng).lifetimes = initLifetimes s.count
      ∧ (s.reset rng).targetPositions = none
      ∧ (s.reset rng).forceFields = []
      ∧ (s.reset rng).positions.length = s.positions.length
      ∧ (s.reset rng).velocities.length = s.velocities.length
      ∧ (s.reset rng).colors.length = s.colors.length
      ∧ (s.reset rng).sizes.length = s.sizes.length
      ∧ (s.reset rng).lifetimes.length = s.lifetimes.length
      ∧ (s.reset rng).count = s.count
      ∧ (s.reset rng).config = s.config :=
  ⟨rfl, rfl, rfl, rfl, rfl, rfl, rfl,
    (length_initPositions s.count s.config rng).trans hp.symm,
    (length_initVelocities s.count rng).trans hv.symm,
    (length_initColors s.count s.config rng).trans hc.symm,
    (length_initSizes s.count s.config rng).trans hsz.symm,
    (length_initLifetimes s.count).trans hlt.symm,
    rfl, rfl⟩

/-- Witness for C10 at the concrete one-particle state: the length
invariant holds and `reset` clears the stored target positions and the
force fields. -/
theorem reset_reinitializes_witness :
    systemW.positions.length = systemW.count * 3
      ∧ (systemW.reset (fun _ => 0)).targetPositions = none
      ∧ (systemW.reset (fun _ => 0)).forceFields = [] :=
  ⟨rfl,
    (reset_reinitializes_in_place systemW (fun _ => 0) rfl rfl rfl rfl rfl).2.2.2.2.2.1,
    (reset_reinitializes_in_place systemW (fun _ => 0) rfl rfl rfl rfl rfl).2.2.2.2.2.2.1⟩

end Portfolio
